import Mathlib

/-
Verification of the aurae client construction pipeline
(src/aurae-client/src/client.rs, AuraeClient::new).

The pipeline is embedded shallowly: filesystem reads, x509 parsing of
opaque byte blobs, TLS-context validation and dialing are supplied by an
abstract environment (they interpret bytes and the outside world), while
the string-level library parsers that decide transport classification
(url::Url::parse, http Uri::from_str) are modelled as concrete executable
functions on the fragment of their behavior the code exercises.  The
function returns, besides its result, an explicit trace of the observable
pipeline steps (file reads, classification, TLS-context application,
dialing), which instruments the order of effects.
-/

namespace Aurae

/-- Byte blobs read from credential files are opaque byte sequences. -/
abbrev Bytes := List Nat

/-- Result of parsing a client certificate, as exposed by the
x509-certificate crate calls made in client.rs: optional subject common
name, optional issuer common name, a content hash that is always
computable once parsing succeeds, and an optional key algorithm. -/
structure Cert where
  subject_common_name : Option String
  issuer_common_name : Option String
  fingerprint : Bytes
  key_algorithm : Option String
deriving DecidableEq

/-- In-memory representation of an X509 identity (struct X509Details in
client.rs, lines 135 to 144). -/
structure X509Details where
  subject_common_name : String
  issuer_common_name : String
  sha256_fingerprint : String
  key_algorithm : String
deriving DecidableEq

/-- Modelled from the spec: the configuration module (outside src/)
supplies three credential file paths.  Field names follow the usage
auth.ca_crt, auth.client_crt, auth.client_key in client.rs. -/
structure AuthMaterial where
  ca_crt : String
  client_crt : String
  client_key : String
deriving DecidableEq

/-- Modelled from the spec: the configuration module (outside src/)
supplies the target socket string, used as system.socket in client.rs. -/
structure SystemConfig where
  socket : String
deriving DecidableEq

/-- Modelled from the spec: AuraeConfig bundles auth material and system
configuration, destructured at the head of AuraeClient::new. -/
structure AuraeConfig where
  auth : AuthMaterial
  system : SystemConfig
deriving DecidableEq

/-- The ClientTlsConfig value assembled at client.rs lines 79 to 85: a
fixed verification domain plus the three loaded byte blobs.  Building it
stores the bytes and cannot fail; validation of the PEM material happens
later, when the config is applied to an endpoint. -/
structure ClientTlsConfigR where
  domain : String
  ca : Bytes
  cert : Bytes
  key : Bytes
deriving DecidableEq

/-- Error kinds of the construction pipeline, following the taxonomy of
the spec mapped onto the failure sites of client.rs: ioError carries the
anyhow context label attached by with_context plus the underlying cause,
cryptoError covers x509 parse failures and TLS-context application
failures, identityError carries the message of the anyhow bang macro for
a missing certificate field, connectionError carries the socket string
from the with_context format plus the underlying cause. -/
inductive AuraeErr where
  | ioError (ctx : String) (cause : String)
  | cryptoError (cause : String)
  | identityError (msg : String)
  | connectionError (socket : String) (cause : String)
deriving DecidableEq

/-- A constructed client: the open channel (an opaque token produced by
the connector) and the extracted identity details (struct AuraeClient in
client.rs, lines 49 to 54). -/
structure AuraeClient where
  channel : Nat
  x509_details : X509Details
deriving DecidableEq

/-- Result of a construction attempt: a normal return with a client, a
normal return with an error, or a process abort via expect (client.rs
line 114). -/
inductive Outcome where
  | ok (client : AuraeClient)
  | err (e : AuraeErr)
  | panic (msg : String)
deriving DecidableEq

/-- True when a construction attempt returned to the caller (with a
client or an error) rather than aborting the process. -/
def Outcome.isReturned : Outcome → Bool
  | Outcome.panic _ => false
  | _ => true

/-- Observable pipeline steps, recorded in order: a file read attempt, the
evaluation of the transport classification (url parse of the socket
string), the application of the TLS config to the endpoint, and a dial
attempt on a target. -/
inductive Step where
  | readFile (path : String)
  | classify
  | applyTls
  | dial (target : String)
deriving DecidableEq

/-- True on dial steps. -/
def Step.isDial : Step → Bool
  | Step.dial _ => true
  | _ => false

/-- Abstract environment interpreting the effects of the pipeline:
filesystem reads, x509 parsing of opaque bytes, TLS-context validation
(the fallible tls_config application on the endpoint), and the two
connectors.  Each is a pure function, so a fixed environment makes every
pipeline stage deterministic. -/
structure Env where
  readFile : String → Except String Bytes
  parseX509 : Bytes → Option Cert
  tlsApply : ClientTlsConfigR → Option String
  connectNet : String → Except String Nat
  connectUnix : String → Except String Nat

/-- Characters allowed in a URI scheme after the first: letters, digits,
plus, minus, dot (RFC 3986). -/
def isSchemeChar (c : Char) : Bool :=
  c.isAlpha || c.isDigit || c = '+' || c = '-' || c = '.'

/-- Split a character list at the first colon, returning the part before
and the part after; none when no colon occurs. -/
def splitColon : List Char → Option (List Char × List Char)
  | [] => none
  | c :: rest =>
    if c = ':' then some ([], rest)
    else match splitColon rest with
      | some (sch, r) => some (c :: sch, r)
      | none => none

/-- A valid URI scheme: nonempty, starts with a letter, and every
character is a scheme character. -/
def validScheme (sch : List Char) : Bool :=
  match sch with
  | [] => false
  | c :: rest => c.isAlpha && (c :: rest).all isSchemeChar

/-- Model of url Url parse as used at client.rs line 113, restricted to
the fragment that decides classification: parsing succeeds exactly when
the string begins with a valid RFC 3986 scheme followed by a colon (an
absolute URL), and a bare filesystem path has no such scheme and fails.
Normalization of the successful parse is omitted: the string is returned
unchanged, since the pipeline only forwards it to the Uri parser and the
dialer. -/
def urlParse (s : String) : Option String :=
  match splitColon s.data with
  | some (sch, _) => if validScheme sch then some s else none
  | none => none

/-- Model of the http crate Uri from_str as used at client.rs line 114,
restricted to the inputs that arise there (outputs of a successful
absolute URL parse).  The http parser only treats the text before the
colon as a scheme when the colon is followed by two slashes; in that
case it requires a nonempty authority component (the text up to the next
slash, question mark or hash), so a string like foo:// with an empty
authority is rejected.  Without the two slashes the whole string is
reinterpreted as a scheme-less authority form and accepted, the port
digits being validated lazily, so a string like foo:bar parses
successfully. -/
def uriFromStr (s : String) : Option String :=
  match splitColon s.data with
  | some (sch, rest) =>
    if validScheme sch && rest.take 2 = ['/', '/'] then
      if (rest.drop 2).takeWhile (fun c => !(c = '/' || c = '?' || c = '#')) ≠ []
      then some s else none
    else some s
  | none => some s

/-- One hexadecimal digit. -/
def hexDigit (n : Nat) : Char :=
  if n < 10 then Char.ofNat (48 + n) else Char.ofNat (87 + (n % 6))

/-- Two hexadecimal digits for one byte value. -/
def byteHex (b : Nat) : List Char :=
  [hexDigit ((b / 16) % 16), hexDigit (b % 16)]

/-- Model of the fixed Debug rendering applied to the sha256 fingerprint
digest at client.rs line 107: a deterministic, injective textual form of
the digest bytes. -/
def renderDigest (d : Bytes) : String :=
  String.mk ('S' :: 'H' :: 'A' :: '2' :: '5' :: '6' :: ':' :: d.flatMap byteHex)

/-- The fixed verification domain set at client.rs line 80. -/
def VERIFICATION_DOMAIN : String := "server.unsafe.aurae.io"

/-- The placeholder static address used for the unix-socket channel
builder at client.rs line 45; the connector ignores it. -/
def KNOWN_IGNORED_SOCKET_ADDR : String := "hxxp://null"

/-- Transport classification: the tagged outcome of the if-let on url
parse at client.rs line 113.  A successful absolute URL parse yields a
network target carrying the parsed URI string; otherwise the string is
treated verbatim as a local socket path. -/
inductive TransportTarget where
  | network (uri : String)
  | localSocket (path : String)
deriving DecidableEq

/-- The pure classification function implemented by the if-let at
client.rs line 113. -/
def classifyTarget (s : String) : TransportTarget :=
  match urlParse s with
  | some u => TransportTarget.network u
  | none => TransportTarget.localSocket s

/-- True on network targets. -/
def TransportTarget.isNetwork : TransportTarget → Bool
  | TransportTarget.network _ => true
  | TransportTarget.localSocket _ => false

/-- Shallow embedding of AuraeClient::new (client.rs lines 64 to 130),
instrumented with a trace of observable steps.  The stages appear in the
exact source order: read CA cert, read client cert, read client key,
build the ClientTlsConfig value (pure), parse the client certificate,
extract subject common name, issuer common name, fingerprint and key
algorithm, classify the socket string, then in the chosen branch parse
the tonic Uri (network only, aborting on failure via expect), apply the
TLS config to the endpoint, and dial.  Connection failures are wrapped
with the socket string context; TLS application failures propagate bare
through the question mark operator. -/
def AuraeClient.new (env : Env) (cfg : AuraeConfig) : Outcome × List Step :=
  let t1 := [Step.readFile cfg.auth.ca_crt]
  match env.readFile cfg.auth.ca_crt with
  | Except.error e => (Outcome.err (AuraeErr.ioError "could not read ca crt" e), t1)
  | Except.ok server_root_ca_cert =>
  let t2 := t1 ++ [Step.readFile cfg.auth.client_crt]
  match env.readFile cfg.auth.client_crt with
  | Except.error e => (Outcome.err (AuraeErr.ioError "could not read client crt" e), t2)
  | Except.ok client_cert =>
  let t3 := t2 ++ [Step.readFile cfg.auth.client_key]
  match env.readFile cfg.auth.client_key with
  | Except.error e => (Outcome.err (AuraeErr.ioError "could not read client key" e), t3)
  | Except.ok client_key =>
  let tls_config : ClientTlsConfigR :=
    { domain := VERIFICATION_DOMAIN
      ca := server_root_ca_cert
      cert := client_cert
      key := client_key }
  match env.parseX509 client_cert with
  | none => (Outcome.err (AuraeErr.cryptoError "invalid x509 certificate"), t3)
  | some x509 =>
  match x509.subject_common_name with
  | none => (Outcome.err (AuraeErr.identityError "missing subject_common_name"), t3)
  | some subject_common_name =>
  match x509.issuer_common_name with
  | none => (Outcome.err (AuraeErr.identityError "missing issuer_common_name"), t3)
  | some issuer_common_name =>
  let sha256_fingerprint := x509.fingerprint
  match x509.key_algorithm with
  | none => (Outcome.err (AuraeErr.identityError "missing key_algorithm"), t3)
  | some key_algorithm =>
  let x509_details : X509Details :=
    { subject_common_name := subject_common_name
      issuer_common_name := issuer_common_name
      sha256_fingerprint := renderDigest sha256_fingerprint
      key_algorithm := key_algorithm }
  let t4 := t3 ++ [Step.classify]
  match classifyTarget cfg.system.socket with
  | TransportTarget.network u =>
    match uriFromStr u with
    | none => (Outcome.panic "valid uri", t4)
    | some uri =>
      match env.tlsApply tls_config with
      | some e => (Outcome.err (AuraeErr.cryptoError e), t4 ++ [Step.applyTls])
      | none =>
        let t5 := t4 ++ [Step.applyTls, Step.dial uri]
        match env.connectNet uri with
        | Except.error e =>
          (Outcome.err (AuraeErr.connectionError cfg.system.socket e), t5)
        | Except.ok ch =>
          (Outcome.ok { channel := ch, x509_details := x509_details }, t5)
  | TransportTarget.localSocket path =>
    match env.tlsApply tls_config with
    | some e => (Outcome.err (AuraeErr.cryptoError e), t4 ++ [Step.applyTls])
    | none =>
      let t5 := t4 ++ [Step.applyTls, Step.dial path]
      match env.connectUnix path with
      | Except.error e =>
        (Outcome.err (AuraeErr.connectionError cfg.system.socket e), t5)
      | Except.ok ch =>
        (Outcome.ok { channel := ch, x509_details := x509_details }, t5)

/-- The identity details computed from a parsed certificate whose three
optional fields are present, as assembled at client.rs lines 104 to 109. -/
def detailsOf (subject issuer alg : String) (fp : Bytes) : X509Details :=
  { subject_common_name := subject
    issuer_common_name := issuer
    sha256_fingerprint := renderDigest fp
    key_algorithm := alg }

/-- The role of a credential file in the fixed read order of client.rs
lines 67 to 77. -/
inductive CredRole where
  | ca
  | crt
  | key
deriving DecidableEq

/-- The anyhow context label the code attaches to a failed read of each
credential file (client.rs lines 69, 73, 77). -/
def roleLabel : CredRole → String
  | CredRole.ca => "could not read ca crt"
  | CredRole.crt => "could not read client crt"
  | CredRole.key => "could not read client key"

/-- The first credential read that fails in the fixed source order CA
certificate, client certificate, client key, together with its cause;
none when all three reads succeed. -/
def firstReadFailure (env : Env) (cfg : AuraeConfig) : Option (CredRole × String) :=
  match env.readFile cfg.auth.ca_crt with
  | Except.error e => some (CredRole.ca, e)
  | Except.ok _ =>
    match env.readFile cfg.auth.client_crt with
    | Except.error e => some (CredRole.crt, e)
    | Except.ok _ =>
      match env.readFile cfg.auth.client_key with
      | Except.error e => some (CredRole.key, e)
      | Except.ok _ => none

/-- The read attempts performed up to and including the read of the given
credential, in the fixed source order. -/
def readsUpTo (cfg : AuraeConfig) : CredRole → List Step
  | CredRole.ca => [Step.readFile cfg.auth.ca_crt]
  | CredRole.crt =>
    [Step.readFile cfg.auth.ca_crt, Step.readFile cfg.auth.client_crt]
  | CredRole.key =>
    [Step.readFile cfg.auth.ca_crt, Step.readFile cfg.auth.client_crt,
     Step.readFile cfg.auth.client_key]

/-- The message of the first missing identity field of a parsed
certificate, in the fixed check order of client.rs lines 89 to 102:
subject common name, then issuer common name, then key algorithm. -/
def firstMissingField (c : Cert) : Option String :=
  match c.subject_common_name with
  | none => some "missing subject_common_name"
  | some _ =>
    match c.issuer_common_name with
    | none => some "missing issuer_common_name"
    | some _ =>
      match c.key_algorithm with
      | none => some "missing key_algorithm"
      | some _ => none

/-- A concrete parsed certificate with all identity fields present, used
as witness material. -/
def certFull : Cert :=
  { subject_common_name := some "client.aurae"
    issuer_common_name := some "ca.aurae"
    fingerprint := [171, 205]
    key_algorithm := some "ECDSA" }

/-- A concrete parsed certificate lacking the issuer common name. -/
def certNoIssuer : Cert :=
  { certFull with issuer_common_name := none }

/-- A concrete parsed certificate lacking every optional identity field. -/
def certNone : Cert :=
  { subject_common_name := none
    issuer_common_name := none
    fingerprint := [171, 205]
    key_algorithm := none }

/-- A concrete environment where the three credential files read
successfully, the client certificate parses to certFull, TLS application
succeeds and both connectors succeed. -/
def envOk : Env :=
  { readFile := fun p =>
      if p = "ca.pem" then Except.ok [1]
      else if p = "crt.pem" then Except.ok [2]
      else if p = "key.pem" then Except.ok [3]
      else Except.error "No such file or directory (os error 2)"
    parseX509 := fun b => if b = [2] then some certFull else none
    tlsApply := fun _ => none
    connectNet := fun _ => Except.ok 7
    connectUnix := fun _ => Except.ok 9 }

/-- Like envOk but the parsed client certificate lacks an issuer common
name. -/
def envNoIssuer : Env :=
  { envOk with parseX509 := fun b => if b = [2] then some certNoIssuer else none }

/-- Like envOk but the parsed client certificate lacks every optional
identity field. -/
def envNoField : Env :=
  { envOk with parseX509 := fun b => if b = [2] then some certNone else none }

/-- Like envOk but applying the TLS config to the endpoint fails, as it
does when the client key bytes are malformed PEM. -/
def envBadKey : Env :=
  { envOk with tlsApply := fun _ => some "invalid key PEM" }

/-- Like envOk but the network dial fails. -/
def envNetFail : Env :=
  { envOk with connectNet := fun _ => Except.error "connection refused" }

/-- An environment where every file read fails with the same underlying
cause, as two missing files do. -/
def envNoFs : Env :=
  { envOk with readFile := fun _ => Except.error "No such file or directory (os error 2)" }

/-- A concrete configuration with a network target string. -/
def cfgNet : AuraeConfig :=
  { auth := { ca_crt := "ca.pem", client_crt := "crt.pem", client_key := "key.pem" }
    system := { socket := "https://host:1234" } }

/-- The same credentials with a local socket path target. -/
def cfgUnix : AuraeConfig :=
  { auth := cfgNet.auth, system := { socket := "/tmp/x.sock" } }

/-- The same credentials with a target that the URL parser accepts (a
valid non-special scheme may have an empty host) but the tonic Uri
parser rejects (the two slashes announce an authority component, which
is empty). -/
def cfgEmptyAuth : AuraeConfig :=
  { auth := cfgNet.auth, system := { socket := "foo://" } }

/-- The same credentials with a syntactically valid absolute URI target
whose scheme is not a network scheme. -/
def cfgFoo : AuraeConfig :=
  { auth := cfgNet.auth, system := { socket := "foo://mail.example/x" } }

/-- A configuration whose CA path differs from cfgNet. -/
def cfgOtherCa : AuraeConfig :=
  { auth := { cfgNet.auth with ca_crt := "/tmp/other-ca.pem" }
    system := cfgNet.system }

/-- The identity details expected from certFull. -/
def detailsW : X509Details :=
  detailsOf "client.aurae" "ca.aurae" "ECDSA" [171, 205]

/-- A network classification can only come from a successful URL parse. -/
theorem classifyTarget_network {s u : String}
    (h : classifyTarget s = TransportTarget.network u) : urlParse s = some u := by
  unfold classifyTarget at h
  cases hu : urlParse s with
  | none => rw [hu] at h; cases h
  | some v => rw [hu] at h; cases h; rfl

/-- A local socket classification carries the string verbatim and can
only come from a failed URL parse. -/
theorem classifyTarget_localSocket {s p : String}
    (h : classifyTarget s = TransportTarget.localSocket p) :
    urlParse s = none ∧ p = s := by
  unfold classifyTarget at h
  cases hu : urlParse s with
  | none => rw [hu] at h; cases h; exact ⟨rfl, rfl⟩
  | some v => rw [hu] at h; cases h

/-- C1: for a valid CA, client certificate and client key triple (all
three files readable, the client certificate well formed with subject
common name, issuer common name and key algorithm present) and a
reachable endpoint, construction succeeds and the returned identity
details exactly equal the values encoded in the client certificate: the
subject common name, the issuer common name, the key algorithm name, and
the fixed rendering of the content fingerprint, which is determined by
the certificate bytes through the parse function. -/
theorem C1_valid_triple_yields_certificate_identity
    (env : Env) (cfg : AuraeConfig) (ca crt key : Bytes) (x509 : Cert)
    (s i a u uri : String) (ch : Nat)
    (hca : env.readFile cfg.auth.ca_crt = Except.ok ca)
    (hcrt : env.readFile cfg.auth.client_crt = Except.ok crt)
    (hkey : env.readFile cfg.auth.client_key = Except.ok key)
    (hx : env.parseX509 crt = some x509)
    (hs : x509.subject_common_name = some s)
    (hi : x509.issuer_common_name = some i)
    (ha : x509.key_algorithm = some a)
    (hcl : urlParse cfg.system.socket = some u)
    (hu : uriFromStr u = some uri)
    (htls : env.tlsApply ⟨VERIFICATION_DOMAIN, ca, crt, key⟩ = none)
    (hconn : env.connectNet uri = Except.ok ch) :
    (AuraeClient.new env cfg).1 =
      Outcome.ok { channel := ch, x509_details := detailsOf s i a x509.fingerprint } := by
  simp [AuraeClient.new, classifyTarget, detailsOf,
    hca, hcrt, hkey, hx, hs, hi, ha, hcl, hu, htls, hconn]

/-- Witness for C1 at a concrete valid environment and configuration. -/
theorem C1_valid_triple_yields_certificate_identity_witness :
    (AuraeClient.new envOk cfgNet).1 =
      Outcome.ok { channel := 7, x509_details := detailsOf "client.aurae" "ca.aurae" "ECDSA" certFull.fingerprint } :=
  C1_valid_triple_yields_certificate_identity envOk cfgNet [1] [2] [3] certFull
    "client.aurae" "ca.aurae" "ECDSA" "https://host:1234" "https://host:1234" 7
    rfl rfl rfl rfl rfl rfl rfl (by decide) (by decide) rfl rfl

/-- C3: a well formed client certificate lacking an issuer common name
fails construction with the identity error for the missing issuer, and
the trace consists of the three file reads only, so no classification,
no TLS application and no dial ever happens: identity extraction
completes before any transport attempt. -/
theorem C3_missing_issuer_fails_before_any_dial
    (env : Env) (cfg : AuraeConfig) (ca crt key : Bytes) (x509 : Cert) (s : String)
    (hca : env.readFile cfg.auth.ca_crt = Except.ok ca)
    (hcrt : env.readFile cfg.auth.client_crt = Except.ok crt)
    (hkey : env.readFile cfg.auth.client_key = Except.ok key)
    (hx : env.parseX509 crt = some x509)
    (hs : x509.subject_common_name = some s)
    (hi : x509.issuer_common_name = none) :
    (AuraeClient.new env cfg).1 =
      Outcome.err (AuraeErr.identityError "missing issuer_common_name") ∧
    (AuraeClient.new env cfg).2 =
      [Step.readFile cfg.auth.ca_crt, Step.readFile cfg.auth.client_crt,
       Step.readFile cfg.auth.client_key] ∧
    ((AuraeClient.new env cfg).2.all fun st => !st.isDial) = true := by
  refine ⟨?_, ?_, ?_⟩ <;>
    simp [AuraeClient.new, Step.isDial, hca, hcrt, hkey, hx, hs, hi]

/-- Witness for C3 at a concrete environment whose client certificate
parses without an issuer common name. -/
theorem C3_missing_issuer_fails_before_any_dial_witness :
    (AuraeClient.new envNoIssuer cfgNet).1 =
      Outcome.err (AuraeErr.identityError "missing issuer_common_name") ∧
    (AuraeClient.new envNoIssuer cfgNet).2 =
      [Step.readFile cfgNet.auth.ca_crt, Step.readFile cfgNet.auth.client_crt,
       Step.readFile cfgNet.auth.client_key] ∧
    ((AuraeClient.new envNoIssuer cfgNet).2.all fun st => !st.isDial) = true :=
  C3_missing_issuer_fails_before_any_dial envNoIssuer cfgNet [1] [2] [3]
    certNoIssuer "client.aurae" rfl rfl rfl rfl rfl rfl

/-- C6: transport classification is the pure function classifyTarget of
the target string alone; the network example classifies as a network
target, the bare path example classifies as a local socket, and repeated
applications to the same string agree because classification is a
function. -/
theorem C6_classification_pure_with_examples :
    classifyTarget "https://host:1234" = TransportTarget.network "https://host:1234" ∧
    classifyTarget "/tmp/x.sock" = TransportTarget.localSocket "/tmp/x.sock" ∧
    ∀ s : String, classifyTarget s = classifyTarget s :=
  ⟨by decide, by decide, fun _ => rfl⟩

/-- C9: when the URL parser accepts the target string but the tonic Uri
parser rejects the parsed form, construction aborts through the expect
call with the message valid uri instead of returning an error, so
construction is not total over target strings. -/
theorem C9_url_ok_uri_rejected_panics
    (env : Env) (cfg : AuraeConfig) (ca crt key : Bytes) (x509 : Cert)
    (s i a u : String)
    (hca : env.readFile cfg.auth.ca_crt = Except.ok ca)
    (hcrt : env.readFile cfg.auth.client_crt = Except.ok crt)
    (hkey : env.readFile cfg.auth.client_key = Except.ok key)
    (hx : env.parseX509 crt = some x509)
    (hs : x509.subject_common_name = some s)
    (hi : x509.issuer_common_name = some i)
    (ha : x509.key_algorithm = some a)
    (hcl : urlParse cfg.system.socket = some u)
    (hu : uriFromStr u = none) :
    (AuraeClient.new env cfg).1 = Outcome.panic "valid uri" := by
  simp [AuraeClient.new, classifyTarget, hca, hcrt, hkey, hx, hs, hi, ha, hcl, hu]

/-- Witness for C9: the target foo:// has a scheme and an empty
authority; the URL parser accepts it (a non-special scheme allows an
empty host), the Uri parser rejects it (the two slashes require a
nonempty authority), and construction aborts. -/
theorem C9_url_ok_uri_rejected_panics_witness :
    (AuraeClient.new envOk cfgEmptyAuth).1 = Outcome.panic "valid uri" :=
  C9_url_ok_uri_rejected_panics envOk cfgEmptyAuth [1] [2] [3] certFull
    "client.aurae" "ca.aurae" "ECDSA" "foo://"
    rfl rfl rfl rfl rfl rfl rfl (by decide) (by decide)

/-- C10: when identity fields are missing from a well formed client
certificate, the reported error is the first missing field in the fixed
check order subject common name, issuer common name, key algorithm; in
particular a certificate missing both common names reports the missing
subject common name. -/
theorem C10_missing_fields_reported_in_fixed_order
    (env : Env) (cfg : AuraeConfig) (ca crt key : Bytes) (x509 : Cert) (m : String)
    (hca : env.readFile cfg.auth.ca_crt = Except.ok ca)
    (hcrt : env.readFile cfg.auth.client_crt = Except.ok crt)
    (hkey : env.readFile cfg.auth.client_key = Except.ok key)
    (hx : env.parseX509 crt = some x509)
    (hm : firstMissingField x509 = some m) :
    (AuraeClient.new env cfg).1 = Outcome.err (AuraeErr.identityError m) := by
  cases hs : x509.subject_common_name with
  | none =>
    rw [firstMissingField, hs] at hm
    cases hm
    simp [AuraeClient.new, hca, hcrt, hkey, hx, hs]
  | some s =>
    cases hi : x509.issuer_common_name with
    | none =>
      rw [firstMissingField, hs, hi] at hm
      cases hm
      simp [AuraeClient.new, hca, hcrt, hkey, hx, hs, hi]
    | some i =>
      cases ha : x509.key_algorithm with
      | none =>
        rw [firstMissingField, hs, hi, ha] at hm
        cases hm
        simp [AuraeClient.new, hca, hcrt, hkey, hx, hs, hi, ha]
      | some a =>
        rw [firstMissingField, hs, hi, ha] at hm
        cases hm

/-- Witness for C10 at a certificate missing both common names and the
key algorithm: the reported error is the missing subject common name. -/
theorem C10_missing_fields_reported_in_fixed_order_witness :
    (AuraeClient.new envNoField cfgNet).1 =
      Outcome.err (AuraeErr.identityError "missing subject_common_name") :=
  C10_missing_fields_reported_in_fixed_order envNoField cfgNet [1] [2] [3]
    certNone "missing subject_common_name" rfl rfl rfl rfl rfl

/-- Shape of every construction attempt: it returns an error, aborts with
the expect message, or returns a client whose identity details come from
the parsed client certificate and whose channel follows a dial; proved by
exhausting every branch of the pipeline. -/
theorem new_shape (env : Env) (cfg : AuraeConfig) :
    (∃ e, (AuraeClient.new env cfg).1 = Outcome.err e) ∨
    ((AuraeClient.new env cfg).1 = Outcome.panic "valid uri") ∨
    (∃ c bytes cert s i a t,
      (AuraeClient.new env cfg).1 = Outcome.ok c ∧
      env.readFile cfg.auth.client_crt = Except.ok bytes ∧
      env.parseX509 bytes = some cert ∧
      cert.subject_common_name = some s ∧
      cert.issuer_common_name = some i ∧
      cert.key_algorithm = some a ∧
      c.x509_details = detailsOf s i a cert.fingerprint ∧
      Step.dial t ∈ (AuraeClient.new env cfg).2) := by
  cases hca : env.readFile cfg.auth.ca_crt with
  | error e =>
    exact Or.inl ⟨AuraeErr.ioError "could not read ca crt" e,
      by simp [AuraeClient.new, hca]⟩
  | ok ca =>
  cases hcrt : env.readFile cfg.auth.client_crt with
  | error e =>
    exact Or.inl ⟨AuraeErr.ioError "could not read client crt" e,
      by simp [AuraeClient.new, hca, hcrt]⟩
  | ok crt =>
  cases hkey : env.readFile cfg.auth.client_key with
  | error e =>
    exact Or.inl ⟨AuraeErr.ioError "could not read client key" e,
      by simp [AuraeClient.new, hca, hcrt, hkey]⟩
  | ok key =>
  cases hx : env.parseX509 crt with
  | none =>
    exact Or.inl ⟨AuraeErr.cryptoError "invalid x509 certificate",
      by simp [AuraeClient.new, hca, hcrt, hkey, hx]⟩
  | some x509 =>
  cases hs : x509.subject_common_name with
  | none =>
    exact Or.inl ⟨AuraeErr.identityError "missing subject_common_name",
      by simp [AuraeClient.new, hca, hcrt, hkey, hx, hs]⟩
  | some s =>
  cases hi : x509.issuer_common_name with
  | none =>
    exact Or.inl ⟨AuraeErr.identityError "missing issuer_common_name",
      by simp [AuraeClient.new, hca, hcrt, hkey, hx, hs, hi]⟩
  | some i =>
  cases ha : x509.key_algorithm with
  | none =>
    exact Or.inl ⟨AuraeErr.identityError "missing key_algorithm",
      by simp [AuraeClient.new, hca, hcrt, hkey, hx, hs, hi, ha]⟩
  | some a =>
  cases hcl : classifyTarget cfg.system.socket with
  | network u =>
    cases hu : uriFromStr u with
    | none =>
      exact Or.inr (Or.inl (by
        simp [AuraeClient.new, hca, hcrt, hkey, hx, hs, hi, ha, hcl, hu]))
    | some uri =>
    cases htls : env.tlsApply { domain := VERIFICATION_DOMAIN, ca := ca, cert := crt, key := key } with
    | some e =>
      exact Or.inl ⟨AuraeErr.cryptoError e, by
        simp [AuraeClient.new, hca, hcrt, hkey, hx, hs, hi, ha, hcl, hu, htls]⟩
    | none =>
    cases hconn : env.connectNet uri with
    | error e =>
      exact Or.inl ⟨AuraeErr.connectionError cfg.system.socket e, by
        simp [AuraeClient.new, hca, hcrt, hkey, hx, hs, hi, ha, hcl, hu, htls, hconn]⟩
    | ok ch =>
      refine Or.inr (Or.inr
        ⟨{ channel := ch, x509_details := detailsOf s i a x509.fingerprint },
          crt, x509, s, i, a, uri, ?_, ?_, ?_, ?_, ?_, ?_, ?_, ?_⟩)
      · simp [AuraeClient.new, detailsOf,
          hca, hcrt, hkey, hx, hs, hi, ha, hcl, hu, htls, hconn]
      · rfl
      · exact hx
      · exact hs
      · exact hi
      · exact ha
      · rfl
      · simp [AuraeClient.new,
          hca, hcrt, hkey, hx, hs, hi, ha, hcl, hu, htls, hconn]
  | localSocket p =>
    cases htls : env.tlsApply { domain := VERIFICATION_DOMAIN, ca := ca, cert := crt, key := key } with
    | some e =>
      exact Or.inl ⟨AuraeErr.cryptoError e, by
        simp [AuraeClient.new, hca, hcrt, hkey, hx, hs, hi, ha, hcl, htls]⟩
    | none =>
    cases hconn : env.connectUnix p with
    | error e =>
      exact Or.inl ⟨AuraeErr.connectionError cfg.system.socket e, by
        simp [AuraeClient.new, hca, hcrt, hkey, hx, hs, hi, ha, hcl, htls, hconn]⟩
    | ok ch =>
      refine Or.inr (Or.inr
        ⟨{ channel := ch, x509_details := detailsOf s i a x509.fingerprint },
          crt, x509, s, i, a, p, ?_, ?_, ?_, ?_, ?_, ?_, ?_, ?_⟩)
      · simp [AuraeClient.new, detailsOf,
          hca, hcrt, hkey, hx, hs, hi, ha, hcl, htls, hconn]
      · rfl
      · exact hx
      · exact hs
      · exact hi
      · exact ha
      · rfl
      · simp [AuraeClient.new,
          hca, hcrt, hkey, hx, hs, hi, ha, hcl, htls, hconn]

/-- C2: identity details do not depend on the target string or transport
kind: two constructions from the same environment and the same credential
paths, one with a target classified as a network endpoint and one with a
target classified as a local socket, yield identical identity details
whenever both succeed. -/
theorem C2_identity_details_independent_of_transport
    (env : Env) (auth : AuthMaterial) (s1 s2 : String) (c1 c2 : AuraeClient)
    (hnet : (classifyTarget s1).isNetwork = true)
    (hloc : (classifyTarget s2).isNetwork = false)
    (h1 : (AuraeClient.new env { auth := auth, system := { socket := s1 } }).1 = Outcome.ok c1)
    (h2 : (AuraeClient.new env { auth := auth, system := { socket := s2 } }).1 = Outcome.ok c2) :
    c1.x509_details = c2.x509_details := by
  rcases new_shape env { auth := auth, system := { socket := s1 } } with
    ⟨e, he⟩ | hp | ⟨c, b, cert, s, i, a, t, hres, hcrt, hx, hs, hi, ha, hdet, hmem⟩
  · rw [h1] at he; exact Outcome.noConfusion he
  · rw [h1] at hp; exact Outcome.noConfusion hp
  rcases new_shape env { auth := auth, system := { socket := s2 } } with
    ⟨e2, he2⟩ | hp2 | ⟨c', b', cert', s', i', a', t', hres2, hcrt2, hx2, hs2, hi2, ha2, hdet2, hmem2⟩
  · rw [h2] at he2; exact Outcome.noConfusion he2
  · rw [h2] at hp2; exact Outcome.noConfusion hp2
  rw [h1] at hres
  rw [h2] at hres2
  injection hres with hc
  injection hres2 with hc2
  subst hc
  subst hc2
  have hb1 : env.readFile auth.client_crt = Except.ok b := hcrt
  have hb2 : env.readFile auth.client_crt = Except.ok b' := hcrt2
  obtain rfl : b = b' := Except.ok.inj (hb1.symm.trans hb2)
  obtain rfl : cert = cert' := Option.some.inj (hx.symm.trans hx2)
  obtain rfl : s = s' := Option.some.inj (hs.symm.trans hs2)
  obtain rfl : i = i' := Option.some.inj (hi.symm.trans hi2)
  obtain rfl : a = a' := Option.some.inj (ha.symm.trans ha2)
  rw [hdet, hdet2]

/-- Witness for C2: the same credentials against a network target and a
local socket target both construct successfully and carry the same
identity details. -/
theorem C2_identity_details_independent_of_transport_witness :
    ({ channel := 7, x509_details := detailsW } : AuraeClient).x509_details =
    ({ channel := 9, x509_details := detailsW } : AuraeClient).x509_details :=
  C2_identity_details_independent_of_transport envOk cfgNet.auth
    "https://host:1234" "/tmp/x.sock"
    { channel := 7, x509_details := detailsW }
    { channel := 9, x509_details := detailsW }
    (by decide) (by decide) (by decide) (by decide)

/-- C8 counterexample: there is an input on which construction neither
returns a client nor returns an error: at the target foo:// (accepted by
the URL parser, rejected by the Uri parser for its empty authority) it
aborts through the expect call, so construction is not a total function
into results and errors. -/
theorem C8_counterexample_panic_is_not_a_returned_result :
    ((AuraeClient.new envOk cfgEmptyAuth).1).isReturned = false ∧
    (AuraeClient.new envOk cfgEmptyAuth).1 = Outcome.panic "valid uri" := by
  exact ⟨by decide, by decide⟩

/-- C8 amended: on every input where construction returns (it can also
abort through the expect call on a target whose URL parse succeeds but
whose Uri parse fails), it returns either a single error or a fully
assembled client whose identity details are exactly the ones extracted
from the parsed client certificate and whose channel was produced by a
dial; assembly adds no further validation. -/
theorem C8_returned_result_is_client_or_single_error (env : Env) (cfg : AuraeConfig) :
    ((AuraeClient.new env cfg).1 = Outcome.panic "valid uri") ∨
    (∃ e, (AuraeClient.new env cfg).1 = Outcome.err e) ∨
    (∃ c bytes cert s i a t,
      (AuraeClient.new env cfg).1 = Outcome.ok c ∧
      env.readFile cfg.auth.client_crt = Except.ok bytes ∧
      env.parseX509 bytes = some cert ∧
      cert.subject_common_name = some s ∧
      cert.issuer_common_name = some i ∧
      cert.key_algorithm = some a ∧
      c.x509_details = detailsOf s i a cert.fingerprint ∧
      Step.dial t ∈ (AuraeClient.new env cfg).2) := by
  rcases new_shape env cfg with h | h | h
  · exact Or.inr (Or.inl h)
  · exact Or.inl h
  · exact Or.inr (Or.inr h)

/-- C4 counterexample: with a client key whose PEM material is rejected
when the TLS config is applied, construction does fail with a crypto
error, but the transport classification step is reached: the claim that
execution never reaches classification is false. -/
theorem C4_counterexample_bad_key_error_reaches_classification :
    (AuraeClient.new envBadKey cfgNet).1 =
      Outcome.err (AuraeErr.cryptoError "invalid key PEM") ∧
    Step.classify ∈ (AuraeClient.new envBadKey cfgNet).2 := by
  exact ⟨by decide, by decide⟩

/-- C4 amended: a client key whose PEM material is rejected yields a
crypto error, and the error surfaces when the TLS config is applied to
the endpoint inside the chosen transport branch, after the transport
classification step but before any dial: the observable order is load,
inspect, classify, apply TLS context, connect. -/
theorem C4_bad_key_crypto_error_after_classification_before_dial
    (env : Env) (cfg : AuraeConfig) (ca crt key : Bytes) (x509 : Cert)
    (s i a e : String)
    (hca : env.readFile cfg.auth.ca_crt = Except.ok ca)
    (hcrt : env.readFile cfg.auth.client_crt = Except.ok crt)
    (hkey : env.readFile cfg.auth.client_key = Except.ok key)
    (hx : env.parseX509 crt = some x509)
    (hs : x509.subject_common_name = some s)
    (hi : x509.issuer_common_name = some i)
    (ha : x509.key_algorithm = some a)
    (htls : env.tlsApply ⟨VERIFICATION_DOMAIN, ca, crt, key⟩ = some e)
    (huri : ∀ u, urlParse cfg.system.socket = some u → (uriFromStr u).isSome = true) :
    (AuraeClient.new env cfg).1 = Outcome.err (AuraeErr.cryptoError e) ∧
    (AuraeClient.new env cfg).2 =
      [Step.readFile cfg.auth.ca_crt, Step.readFile cfg.auth.client_crt,
       Step.readFile cfg.auth.client_key, Step.classify, Step.applyTls] := by
  cases hcl : classifyTarget cfg.system.socket with
  | network u =>
    have hup := classifyTarget_network hcl
    have hsome := huri u hup
    cases hu : uriFromStr u with
    | none => rw [hu] at hsome; cases hsome
    | some uri =>
      refine ⟨?_, ?_⟩ <;>
        simp [AuraeClient.new, hca, hcrt, hkey, hx, hs, hi, ha, hcl, hu, htls]
  | localSocket p =>
    refine ⟨?_, ?_⟩ <;>
      simp [AuraeClient.new, hca, hcrt, hkey, hx, hs, hi, ha, hcl, htls]

/-- Witness for the amended C4 at a concrete environment whose TLS
application rejects the key material, with a network target. -/
theorem C4_bad_key_crypto_error_after_classification_before_dial_witness :
    (AuraeClient.new envBadKey cfgNet).1 =
      Outcome.err (AuraeErr.cryptoError "invalid key PEM") ∧
    (AuraeClient.new envBadKey cfgNet).2 =
      [Step.readFile cfgNet.auth.ca_crt, Step.readFile cfgNet.auth.client_crt,
       Step.readFile cfgNet.auth.client_key, Step.classify, Step.applyTls] :=
  C4_bad_key_crypto_error_after_classification_before_dial envBadKey cfgNet
    [1] [2] [3] certFull "client.aurae" "ca.aurae" "ECDSA" "invalid key PEM"
    rfl rfl rfl rfl rfl rfl rfl rfl
    (fun u hu => by
      rw [show urlParse cfgNet.system.socket = some "https://host:1234" from by decide] at hu
      injection hu with h
      subst h
      decide)

/-- C5 counterexample: two configurations that differ only in the CA path
and both fail the CA read with the same underlying cause produce
identical error values, so the returned IOError cannot reference the
offending path; it carries only the fixed context label for the CA
certificate. -/
theorem C5_counterexample_io_error_lacks_path :
    cfgNet.auth.ca_crt ≠ cfgOtherCa.auth.ca_crt ∧
    (AuraeClient.new envNoFs cfgNet).1 = (AuraeClient.new envNoFs cfgOtherCa).1 ∧
    (AuraeClient.new envNoFs cfgNet).1 =
      Outcome.err (AuraeErr.ioError "could not read ca crt"
        "No such file or directory (os error 2)") := by
  exact ⟨by decide, by decide, by decide⟩

/-- C5 amended: credential files are read in the fixed order CA
certificate, client certificate, client key; construction fails on the
first unreadable file with an IOError carrying a fixed context label that
identifies which credential failed (not its path) plus the underlying
cause, and the trace shows exactly the reads attempted up to and
including the failing one, so a missing CA file is reported with the CA
label and the other two files are never read. -/
theorem C5_first_unreadable_file_gives_labeled_io_error
    (env : Env) (cfg : AuraeConfig) (role : CredRole) (e : String)
    (h : firstReadFailure env cfg = some (role, e)) :
    (AuraeClient.new env cfg).1 = Outcome.err (AuraeErr.ioError (roleLabel role) e) ∧
    (AuraeClient.new env cfg).2 = readsUpTo cfg role := by
  cases hca : env.readFile cfg.auth.ca_crt with
  | error e1 =>
    simp only [firstReadFailure, hca, Option.some.injEq, Prod.mk.injEq] at h
    obtain ⟨rfl, rfl⟩ := h
    refine ⟨?_, ?_⟩ <;> simp [AuraeClient.new, roleLabel, readsUpTo, hca]
  | ok ca =>
  cases hcrt : env.readFile cfg.auth.client_crt with
  | error e1 =>
    simp only [firstReadFailure, hca, hcrt, Option.some.injEq, Prod.mk.injEq] at h
    obtain ⟨rfl, rfl⟩ := h
    refine ⟨?_, ?_⟩ <;> simp [AuraeClient.new, roleLabel, readsUpTo, hca, hcrt]
  | ok crt =>
  cases hkey : env.readFile cfg.auth.client_key with
  | error e1 =>
    simp only [firstReadFailure, hca, hcrt, hkey, Option.some.injEq, Prod.mk.injEq] at h
    obtain ⟨rfl, rfl⟩ := h
    refine ⟨?_, ?_⟩ <;> simp [AuraeClient.new, roleLabel, readsUpTo, hca, hcrt, hkey]
  | ok key =>
    simp only [firstReadFailure, hca, hcrt, hkey] at h
    cases h

/-- Witness for the amended C5: an environment where every read fails
reports the CA label and attempts only the CA read. -/
theorem C5_first_unreadable_file_gives_labeled_io_error_witness :
    (AuraeClient.new envNoFs cfgNet).1 =
      Outcome.err (AuraeErr.ioError (roleLabel CredRole.ca)
        "No such file or directory (os error 2)") ∧
    (AuraeClient.new envNoFs cfgNet).2 = readsUpTo cfgNet CredRole.ca :=
  C5_first_unreadable_file_gives_labeled_io_error envNoFs cfgNet CredRole.ca
    "No such file or directory (os error 2)" (by decide)

/-- C7: every target string whose URL parse succeeds is classified as a
network target, with no condition on the scheme, and when the later dial
on such a target fails the construction returns a connection error
carrying the socket string, at connect time rather than classification
time. -/
theorem C7_absolute_uri_is_network_and_dial_failure_is_connection_error
    (env : Env) (cfg : AuraeConfig) (ca crt key : Bytes) (x509 : Cert)
    (s i a u uri e : String)
    (hca : env.readFile cfg.auth.ca_crt = Except.ok ca)
    (hcrt : env.readFile cfg.auth.client_crt = Except.ok crt)
    (hkey : env.readFile cfg.auth.client_key = Except.ok key)
    (hx : env.parseX509 crt = some x509)
    (hs : x509.subject_common_name = some s)
    (hi : x509.issuer_common_name = some i)
    (ha : x509.key_algorithm = some a)
    (hcl : urlParse cfg.system.socket = some u)
    (hu : uriFromStr u = some uri)
    (htls : env.tlsApply ⟨VERIFICATION_DOMAIN, ca, crt, key⟩ = none)
    (hconn : env.connectNet uri = Except.error e) :
    classifyTarget cfg.system.socket = TransportTarget.network u ∧
    (AuraeClient.new env cfg).1 =
      Outcome.err (AuraeErr.connectionError cfg.system.socket e) ∧
    Step.dial uri ∈ (AuraeClient.new env cfg).2 := by
  refine ⟨by simp [classifyTarget, hcl], ?_, ?_⟩ <;>
    simp [AuraeClient.new, classifyTarget,
      hca, hcrt, hkey, hx, hs, hi, ha, hcl, hu, htls, hconn]

/-- Witness for C7 at a non network scheme: the target with scheme foo is
still classified as a network target and the dial failure surfaces as a
connection error. -/
theorem C7_absolute_uri_is_network_and_dial_failure_is_connection_error_witness :
    classifyTarget cfgFoo.system.socket = TransportTarget.network "foo://mail.example/x" ∧
    (AuraeClient.new envNetFail cfgFoo).1 =
      Outcome.err (AuraeErr.connectionError cfgFoo.system.socket "connection refused") ∧
    Step.dial "foo://mail.example/x" ∈ (AuraeClient.new envNetFail cfgFoo).2 :=
  C7_absolute_uri_is_network_and_dial_failure_is_connection_error envNetFail cfgFoo
    [1] [2] [3] certFull "client.aurae" "ca.aurae" "ECDSA"
    "foo://mail.example/x" "foo://mail.example/x" "connection refused"
    rfl rfl rfl rfl rfl rfl rfl (by decide) (by decide) rfl rfl

end Aurae
